import Mathlib

/-!
Shallow embedding of `serio`'s `SerialTransport` (src/serio/transport.py).

The transport's mutable attributes become fields of `TransportState`.
Each method becomes a function `TransportState → TransportState × List Event`,
where the event list records the protocol callbacks the method invokes or
schedules (`connection_made`, `data_received`, `connection_lost`,
`pause_writing`, `resume_writing`), in program order.

Device interactions are externalized: `serial.read` outcomes become a
`ReadResult` argument, `serial.write` outcomes a `WriteResult` argument
(the number of bytes accepted, a would-block condition, or a device error).
Byte strings are `List Nat`.  Python integers are `Int` (the counter
`_write_buffer_size` is decremented with plain subtraction in the source,
so it is not modelled as `Nat`).

Event-loop registrations (`add_reader`/`add_writer`/`remove_*`) are
modelled by the `readerActive`/`writerActive` flags exactly as the source
tracks them; registration calls are assumed to succeed (the source
swallows `OSError`/`NotImplementedError` from them).  The Windows poll
task becomes the `pollActive` flag plus `poll_tick`, the body of one
iteration of `_poll_loop`.
-/

/-- Platform selector: `os.name == 'posix'` vs `os.name == 'nt'`. -/
inductive Mode
  | posix
  | nt
deriving DecidableEq, Repr

/-- Device-level I/O failures (`serial.SerialException` / `OSError`),
identified by an arbitrary code. -/
inductive DevErr
  | serialException (code : Nat)
  | osError (code : Nat)
deriving DecidableEq, Repr

/-- Exceptions raised synchronously to the caller.  `valueError` is the
builtin `ValueError`; `serialConfigError` is `serio.exceptions.SerialConfigError`
(the spec's `ConfigurationError`). -/
inductive PyExn
  | valueError
  | serialConfigError
deriving DecidableEq, Repr

/-- Protocol callbacks invoked or scheduled by the transport. -/
inductive Event
  | connection_made
  | data_received (data : List Nat)
  | connection_lost (err : Option DevErr)
  | pause_writing
  | resume_writing
deriving DecidableEq, Repr

/-- The mutable state of a `SerialTransport`, one field per attribute of
the Python object (plus `serialOpen` for `self._serial.is_open`). -/
structure TransportState where
  mode : Mode
  closing : Bool
  protocolPaused : Bool
  highWaterMark : Int
  lowWaterMark : Int
  writeBuffer : List (List Nat)
  writeBufferSize : Int
  readerActive : Bool
  writerActive : Bool
  pollActive : Bool
  serialOpen : Bool
deriving DecidableEq, Repr

/-- `SerialTransport.__init__`: store the configuration, start with empty
buffers, arm the reader (POSIX) or the poll task (Windows), and schedule
`connection_made`. -/
def init (mode : Mode) (high_water_mark low_water_mark : Int) :
    TransportState × List Event :=
  ({ mode := mode
     closing := false
     protocolPaused := false
     highWaterMark := high_water_mark
     lowWaterMark := low_water_mark
     writeBuffer := []
     writeBufferSize := 0
     readerActive := (if mode = Mode.posix then true else false)
     writerActive := false
     pollActive := (if mode = Mode.nt then true else false)
     serialOpen := true },
   [Event.connection_made])

/-- `SerialTransport._check_flow_control`. -/
def check_flow_control (s : TransportState) : TransportState × List Event :=
  if s.protocolPaused = true ∧ s.writeBufferSize ≤ s.lowWaterMark then
    ({ s with protocolPaused := false }, [Event.resume_writing])
  else if s.protocolPaused = false ∧ s.writeBufferSize ≥ s.highWaterMark then
    ({ s with protocolPaused := true }, [Event.pause_writing])
  else
    (s, [])

/-- `SerialTransport._ensure_writer` (registration assumed to succeed). -/
def ensure_writer (s : TransportState) : TransportState :=
  if s.mode = Mode.posix ∧ s.writerActive = false then
    { s with writerActive := true }
  else s

/-- `SerialTransport._remove_writer`. -/
def remove_writer (s : TransportState) : TransportState :=
  if s.mode = Mode.posix ∧ s.writerActive = true then
    { s with writerActive := false }
  else s

/-- `SerialTransport._cleanup_reader`. -/
def cleanup_reader (s : TransportState) : TransportState :=
  if s.mode = Mode.posix ∧ s.readerActive = true then
    { s with readerActive := false }
  else s

/-- `SerialTransport._cleanup_async`: drop reader and writer registrations,
cancel the poll task, close the serial port. -/
def cleanup_async (s : TransportState) : TransportState :=
  let s1 := remove_writer (cleanup_reader s)
  { s1 with pollActive := false, serialOpen := false }

/-- `SerialTransport._complete_close`. -/
def complete_close (s : TransportState) : TransportState × List Event :=
  (cleanup_async s, [Event.connection_lost none])

/-- `SerialTransport.write`. -/
def write (data : List Nat) (s : TransportState) : TransportState × List Event :=
  if s.closing = true then (s, [])
  else
    let s1 := { s with writeBuffer := s.writeBuffer ++ [data],
                       writeBufferSize := s.writeBufferSize + data.length }
    check_flow_control (ensure_writer s1)

/-- `SerialTransport.close`. -/
def close (s : TransportState) : TransportState × List Event :=
  if s.closing = true then (s, [])
  else
    let s1 := cleanup_reader { s with closing := true }
    if s1.writeBuffer = [] then complete_close s1 else (s1, [])

/-- `SerialTransport.abort`. -/
def abort (s : TransportState) : TransportState × List Event :=
  let s1 := cleanup_async { s with closing := true }
  ({ s1 with writeBuffer := [], writeBufferSize := 0 },
   [Event.connection_lost none])

/-- `SerialTransport._fatal_error`. -/
def fatal_error (e : DevErr) (s : TransportState) : TransportState × List Event :=
  if s.closing = true then (s, [])
  else (cleanup_async { s with closing := true },
        [Event.connection_lost (some e)])

/-- Outcome of the one `serial.read` performed by `_read_ready`. -/
inductive ReadResult
  | bytes (data : List Nat)
  | failed (e : DevErr)
deriving DecidableEq, Repr

/-- `SerialTransport._read_ready`. -/
def read_ready (r : ReadResult) (s : TransportState) : TransportState × List Event :=
  if s.closing = true then (s, [])
  else
    match r with
    | ReadResult.bytes data =>
        if data = [] then (s, []) else (s, [Event.data_received data])
    | ReadResult.failed e => fatal_error e s

/-- Outcome of the one `serial.write` performed by `_write_ready`. -/
inductive WriteResult
  | wrote (n : Nat)
  | would_block
  | failed (e : DevErr)
deriving DecidableEq, Repr

/-- `SerialTransport._write_ready`. -/
def write_ready (r : WriteResult) (s : TransportState) : TransportState × List Event :=
  match s.writeBuffer with
  | [] => (remove_writer s, [])
  | data :: rest =>
    if s.closing = true then (remove_writer s, [])
    else
      let step : TransportState × List Event :=
        match r with
        | WriteResult.wrote n =>
            if n = data.length then
              ({ s with writeBuffer := rest,
                        writeBufferSize := s.writeBufferSize - data.length }, [])
            else
              ({ s with writeBuffer := data.drop n :: rest,
                        writeBufferSize := s.writeBufferSize - n }, [])
        | WriteResult.would_block => (s, [])
        | WriteResult.failed e => fatal_error e s
      let s1 := step.1
      let s2 := if s1.writeBuffer = [] then remove_writer s1 else s1
      let p3 := check_flow_control s2
      if p3.1.closing = true ∧ p3.1.writeBuffer = [] then
        let p4 := complete_close p3.1
        (p4.1, step.2 ++ p3.2 ++ p4.2)
      else
        (p3.1, step.2 ++ p3.2)

/-- One iteration of the body of `SerialTransport._poll_loop` (Windows),
given the device's `in_waiting`/`out_waiting` counters and the outcomes of
any read/write attempts it makes. -/
def poll_tick (in_waiting out_waiting : Nat) (rr : ReadResult) (wr : WriteResult)
    (s : TransportState) : TransportState × List Event :=
  if s.closing = true then (s, [])
  else
    let p1 := if in_waiting > 0 then read_ready rr s else (s, [])
    let p2 := if p1.1.writeBuffer ≠ [] ∧ out_waiting < 1024 then
                write_ready wr p1.1
              else (p1.1, [])
    (p2.1, p1.2 ++ p2.2)

/-- `SerialTransport.pause_reading`. -/
def pause_reading (s : TransportState) : TransportState :=
  if s.mode = Mode.posix ∧ s.readerActive = true then
    { s with readerActive := false }
  else s

/-- `SerialTransport.resume_reading` (registration assumed to succeed). -/
def resume_reading (s : TransportState) : TransportState :=
  if s.mode = Mode.posix ∧ s.readerActive = false ∧ s.closing = false then
    { s with readerActive := true }
  else s

/-- `SerialTransport.get_write_buffer_size`. -/
def get_write_buffer_size (s : TransportState) : Int :=
  s.writeBufferSize

/-- The effective `high` argument of `set_write_buffer_limits` after the
source's default-filling (`65536 if low is None else 4 * low`). -/
def swbl_high (high low : Option Int) : Int :=
  match high with
  | none => match low with
            | none => 65536
            | some l => 4 * l
  | some h => h

/-- The effective `low` argument of `set_write_buffer_limits` after the
source's default-filling (`high // 4`, Python floor division). -/
def swbl_low (high low : Option Int) : Int :=
  match low with
  | none => Int.fdiv (swbl_high high low) 4
  | some l => l

/-- `SerialTransport.set_write_buffer_limits`: fill defaults, validate
`high >= low >= 0` (raising `ValueError` otherwise), store the watermarks
and re-run flow control. -/
def set_write_buffer_limits (high low : Option Int) (s : TransportState) :
    Except PyExn (TransportState × List Event) :=
  let h := swbl_high high low
  let l := swbl_low high low
  if h ≥ l ∧ l ≥ 0 then
    Except.ok (check_flow_control { s with highWaterMark := h, lowWaterMark := l })
  else
    Except.error PyExn.valueError

/-- External stimuli driving the transport: consumer API calls, readiness
callbacks with their device outcome, and poll ticks. -/
inductive Op
  | opWrite (data : List Nat)
  | opWriteReady (r : WriteResult)
  | opReadReady (r : ReadResult)
  | opClose
  | opAbort
  | opFatal (e : DevErr)
  | opSetLimits (high low : Option Int)
  | opPauseReading
  | opResumeReading
  | opPollTick (in_waiting out_waiting : Nat) (rr : ReadResult) (wr : WriteResult)
deriving DecidableEq, Repr

/-- Apply one stimulus.  A raising `set_write_buffer_limits` leaves the
state unchanged (the exception propagates to the caller before any
mutation). -/
def applyOp (o : Op) (s : TransportState) : TransportState × List Event :=
  match o with
  | Op.opWrite d => write d s
  | Op.opWriteReady r => write_ready r s
  | Op.opReadReady r => read_ready r s
  | Op.opClose => close s
  | Op.opAbort => abort s
  | Op.opFatal e => fatal_error e s
  | Op.opSetLimits h l =>
      match set_write_buffer_limits h l s with
      | Except.ok p => p
      | Except.error _ => (s, [])
  | Op.opPauseReading => (pause_reading s, [])
  | Op.opResumeReading => (resume_reading s, [])
  | Op.opPollTick iw ow rr wr => poll_tick iw ow rr wr s

/-- Run a sequence of stimuli, collecting the emitted events. -/
def runOps (s : TransportState) : List Op → TransportState × List Event
  | [] => (s, [])
  | o :: rest =>
      let p := applyOp o s
      let q := runOps p.1 rest
      (q.1, p.2 ++ q.2)

/-- A device never reports more bytes written than it was handed: a
`wrote n` outcome is well-formed when `n` is at most the length of the
head chunk it answers for. -/
def opValid (o : Op) (s : TransportState) : Bool :=
  match o with
  | Op.opWriteReady (WriteResult.wrote n) =>
      decide (n ≤ (s.writeBuffer.headD []).length)
  | Op.opPollTick _ _ _ (WriteResult.wrote n) =>
      decide (n ≤ (s.writeBuffer.headD []).length)
  | _ => true

/-- Well-formedness of a stimulus sequence, checked state by state. -/
def validOps : List Op → TransportState → Bool
  | [], _ => true
  | o :: rest, s => opValid o s && validOps rest (applyOp o s).1

/-- Total number of bytes across the queued chunks. -/
def sumLen (l : List (List Nat)) : Nat :=
  (l.map List.length).sum

/-- Number of `connection_lost` events in a trace. -/
def countConnLost (evs : List Event) : Nat :=
  (evs.filter fun e =>
    match e with
    | Event.connection_lost _ => true
    | _ => false).length

/-- The accounting invariant: the `_write_buffer_size` counter equals the
total number of bytes queued in `_write_buffer`. -/
def goodSize (s : TransportState) : Prop :=
  s.writeBufferSize = (sumLen s.writeBuffer : Int)

/-- A sample mid-flight transport state used to instantiate theorems with
hypotheses at concrete inputs. -/
def sampleState : TransportState :=
  { mode := Mode.posix
    closing := false
    protocolPaused := false
    highWaterMark := 10
    lowWaterMark := 3
    writeBuffer := [[1, 2, 3], [4]]
    writeBufferSize := 4
    readerActive := true
    writerActive := true
    pollActive := false
    serialOpen := true }

section FrameLemmas

variable (s : TransportState)

@[simp] theorem remove_writer_writeBuffer :
    (remove_writer s).writeBuffer = s.writeBuffer := by
  unfold remove_writer; split <;> rfl

@[simp] theorem remove_writer_writeBufferSize :
    (remove_writer s).writeBufferSize = s.writeBufferSize := by
  unfold remove_writer; split <;> rfl

@[simp] theorem remove_writer_closing :
    (remove_writer s).closing = s.closing := by
  unfold remove_writer; split <;> rfl

@[simp] theorem remove_writer_protocolPaused :
    (remove_writer s).protocolPaused = s.protocolPaused := by
  unfold remove_writer; split <;> rfl

@[simp] theorem remove_writer_highWaterMark :
    (remove_writer s).highWaterMark = s.highWaterMark := by
  unfold remove_writer; split <;> rfl

@[simp] theorem remove_writer_lowWaterMark :
    (remove_writer s).lowWaterMark = s.lowWaterMark := by
  unfold remove_writer; split <;> rfl

@[simp] theorem remove_writer_readerActive :
    (remove_writer s).readerActive = s.readerActive := by
  unfold remove_writer; split <;> rfl

@[simp] theorem remove_writer_pollActive :
    (remove_writer s).pollActive = s.pollActive := by
  unfold remove_writer; split <;> rfl

@[simp] theorem remove_writer_serialOpen :
    (remove_writer s).serialOpen = s.serialOpen := by
  unfold remove_writer; split <;> rfl

@[simp] theorem remove_writer_mode :
    (remove_writer s).mode = s.mode := by
  unfold remove_writer; split <;> rfl

@[simp] theorem cleanup_reader_writeBuffer :
    (cleanup_reader s).writeBuffer = s.writeBuffer := by
  unfold cleanup_reader; split <;> rfl

@[simp] theorem cleanup_reader_writeBufferSize :
    (cleanup_reader s).writeBufferSize = s.writeBufferSize := by
  unfold cleanup_reader; split <;> rfl

@[simp] theorem cleanup_reader_closing :
    (cleanup_reader s).closing = s.closing := by
  unfold cleanup_reader; split <;> rfl

@[simp] theorem cleanup_reader_protocolPaused :
    (cleanup_reader s).protocolPaused = s.protocolPaused := by
  unfold cleanup_reader; split <;> rfl

@[simp] theorem cleanup_reader_highWaterMark :
    (cleanup_reader s).highWaterMark = s.highWaterMark := by
  unfold cleanup_reader; split <;> rfl

@[simp] theorem cleanup_reader_lowWaterMark :
    (cleanup_reader s).lowWaterMark = s.lowWaterMark := by
  unfold cleanup_reader; split <;> rfl

@[simp] theorem cleanup_reader_writerActive :
    (cleanup_reader s).writerActive = s.writerActive := by
  unfold cleanup_reader; split <;> rfl

@[simp] theorem cleanup_reader_pollActive :
    (cleanup_reader s).pollActive = s.pollActive := by
  unfold cleanup_reader; split <;> rfl

@[simp] theorem cleanup_reader_serialOpen :
    (cleanup_reader s).serialOpen = s.serialOpen := by
  unfold cleanup_reader; split <;> rfl

@[simp] theorem cleanup_reader_mode :
    (cleanup_reader s).mode = s.mode := by
  unfold cleanup_reader; split <;> rfl

@[simp] theorem ensure_writer_writeBuffer :
    (ensure_writer s).writeBuffer = s.writeBuffer := by
  unfold ensure_writer; split <;> rfl

@[simp] theorem ensure_writer_writeBufferSize :
    (ensure_writer s).writeBufferSize = s.writeBufferSize := by
  unfold ensure_writer; split <;> rfl

@[simp] theorem ensure_writer_closing :
    (ensure_writer s).closing = s.closing := by
  unfold ensure_writer; split <;> rfl

@[simp] theorem ensure_writer_protocolPaused :
    (ensure_writer s).protocolPaused = s.protocolPaused := by
  unfold ensure_writer; split <;> rfl

@[simp] theorem ensure_writer_highWaterMark :
    (ensure_writer s).highWaterMark = s.highWaterMark := by
  unfold ensure_writer; split <;> rfl

@[simp] theorem ensure_writer_lowWaterMark :
    (ensure_writer s).lowWaterMark = s.lowWaterMark := by
  unfold ensure_writer; split <;> rfl

@[simp] theorem pause_reading_writeBuffer :
    (pause_reading s).writeBuffer = s.writeBuffer := by
  unfold pause_reading; split <;> rfl

@[simp] theorem pause_reading_writeBufferSize :
    (pause_reading s).writeBufferSize = s.writeBufferSize := by
  unfold pause_reading; split <;> rfl

@[simp] theorem pause_reading_closing :
    (pause_reading s).closing = s.closing := by
  unfold pause_reading; split <;> rfl

@[simp] theorem resume_reading_writeBuffer :
    (resume_reading s).writeBuffer = s.writeBuffer := by
  unfold resume_reading; split <;> rfl

@[simp] theorem resume_reading_writeBufferSize :
    (resume_reading s).writeBufferSize = s.writeBufferSize := by
  unfold resume_reading; split <;> rfl

@[simp] theorem resume_reading_closing :
    (resume_reading s).closing = s.closing := by
  unfold resume_reading; split <;> rfl

@[simp] theorem cleanup_async_writeBuffer :
    (cleanup_async s).writeBuffer = s.writeBuffer := by
  unfold cleanup_async; simp

@[simp] theorem cleanup_async_writeBufferSize :
    (cleanup_async s).writeBufferSize = s.writeBufferSize := by
  unfold cleanup_async; simp

@[simp] theorem cleanup_async_closing :
    (cleanup_async s).closing = s.closing := by
  unfold cleanup_async; simp

@[simp] theorem cleanup_async_protocolPaused :
    (cleanup_async s).protocolPaused = s.protocolPaused := by
  unfold cleanup_async; simp

@[simp] theorem cleanup_async_highWaterMark :
    (cleanup_async s).highWaterMark = s.highWaterMark := by
  unfold cleanup_async; simp

@[simp] theorem cleanup_async_lowWaterMark :
    (cleanup_async s).lowWaterMark = s.lowWaterMark := by
  unfold cleanup_async; simp

@[simp] theorem cleanup_async_pollActive :
    (cleanup_async s).pollActive = false := rfl

@[simp] theorem cleanup_async_serialOpen :
    (cleanup_async s).serialOpen = false := rfl

@[simp] theorem cfc_writeBuffer :
    (check_flow_control s).1.writeBuffer = s.writeBuffer := by
  unfold check_flow_control; split
  · rfl
  · split <;> rfl

@[simp] theorem cfc_writeBufferSize :
    (check_flow_control s).1.writeBufferSize = s.writeBufferSize := by
  unfold check_flow_control; split
  · rfl
  · split <;> rfl

@[simp] theorem cfc_closing :
    (check_flow_control s).1.closing = s.closing := by
  unfold check_flow_control; split
  · rfl
  · split <;> rfl

@[simp] theorem cfc_highWaterMark :
    (check_flow_control s).1.highWaterMark = s.highWaterMark := by
  unfold check_flow_control; split
  · rfl
  · split <;> rfl

@[simp] theorem cfc_lowWaterMark :
    (check_flow_control s).1.lowWaterMark = s.lowWaterMark := by
  unfold check_flow_control; split
  · rfl
  · split <;> rfl

@[simp] theorem cfc_readerActive :
    (check_flow_control s).1.readerActive = s.readerActive := by
  unfold check_flow_control; split
  · rfl
  · split <;> rfl

@[simp] theorem cfc_writerActive :
    (check_flow_control s).1.writerActive = s.writerActive := by
  unfold check_flow_control; split
  · rfl
  · split <;> rfl

@[simp] theorem cfc_pollActive :
    (check_flow_control s).1.pollActive = s.pollActive := by
  unfold check_flow_control; split
  · rfl
  · split <;> rfl

@[simp] theorem cfc_serialOpen :
    (check_flow_control s).1.serialOpen = s.serialOpen := by
  unfold check_flow_control; split
  · rfl
  · split <;> rfl

@[simp] theorem cfc_mode :
    (check_flow_control s).1.mode = s.mode := by
  unfold check_flow_control; split
  · rfl
  · split <;> rfl

theorem cfc_no_connLost : countConnLost (check_flow_control s).2 = 0 := by
  unfold check_flow_control; split
  · rfl
  · split <;> rfl

end FrameLemmas

@[simp] theorem sumLen_nil : sumLen [] = 0 := rfl

@[simp] theorem sumLen_cons (d : List Nat) (l : List (List Nat)) :
    sumLen (d :: l) = d.length + sumLen l := by
  simp [sumLen]

@[simp] theorem sumLen_append (l₁ l₂ : List (List Nat)) :
    sumLen (l₁ ++ l₂) = sumLen l₁ + sumLen l₂ := by
  simp [sumLen]

theorem fatal_error_of_closing (e : DevErr) (s : TransportState)
    (h : s.closing = true) : fatal_error e s = (s, []) := by
  unfold fatal_error; rw [h]; rfl

theorem fatal_error_of_not_closing (e : DevErr) (s : TransportState)
    (h : s.closing = false) :
    fatal_error e s =
      (cleanup_async { s with closing := true },
       [Event.connection_lost (some e)]) := by
  unfold fatal_error; rw [h]; rfl

theorem read_ready_of_closing (r : ReadResult) (s : TransportState)
    (h : s.closing = true) : read_ready r s = (s, []) := by
  unfold read_ready; rw [h]; rfl

theorem read_ready_failed_of_not_closing (e : DevErr) (s : TransportState)
    (h : s.closing = false) :
    read_ready (ReadResult.failed e) s =
      (cleanup_async { s with closing := true },
       [Event.connection_lost (some e)]) := by
  unfold read_ready; rw [h]
  simpa using fatal_error_of_not_closing e s h

theorem write_ready_of_nil (r : WriteResult) (s : TransportState)
    (h : s.writeBuffer = []) : write_ready r s = (remove_writer s, []) := by
  unfold write_ready; rw [h]

theorem write_ready_of_closing (r : WriteResult) (s : TransportState)
    (d : List Nat) (rest : List (List Nat)) (hb : s.writeBuffer = d :: rest)
    (h : s.closing = true) : write_ready r s = (remove_writer s, []) := by
  unfold write_ready; rw [hb, h]; simp

theorem write_ready_would_block (s : TransportState)
    (d : List Nat) (rest : List (List Nat)) (hb : s.writeBuffer = d :: rest)
    (h : s.closing = false) :
    write_ready WriteResult.would_block s = check_flow_control s := by
  unfold write_ready
  rw [hb, h]
  simp [hb, h]

theorem write_ready_full (s : TransportState) (d : List Nat)
    (rest : List (List Nat)) (hb : s.writeBuffer = d :: rest)
    (h : s.closing = false) :
    write_ready (WriteResult.wrote d.length) s =
      check_flow_control
        (if rest = [] then
           remove_writer { s with writeBuffer := rest,
                                  writeBufferSize := s.writeBufferSize - d.length }
         else
           { s with writeBuffer := rest,
                    writeBufferSize := s.writeBufferSize - d.length }) := by
  unfold write_ready
  rw [hb]
  simp only [h, Bool.false_eq_true, if_false, ite_false, if_true]
  split
  · simp_all
  · simp_all

theorem write_ready_partial_case (s : TransportState) (d : List Nat)
    (rest : List (List Nat)) (n : Nat) (hb : s.writeBuffer = d :: rest)
    (h : s.closing = false) (hn : n ≠ d.length) :
    write_ready (WriteResult.wrote n) s =
      check_flow_control
        { s with writeBuffer := d.drop n :: rest,
                 writeBufferSize := s.writeBufferSize - n } := by
  unfold write_ready
  rw [hb]
  simp only [h, hn, Bool.false_eq_true, if_false, ite_false]
  simp [h, hn]

theorem write_ready_failed (s : TransportState) (d : List Nat)
    (rest : List (List Nat)) (e : DevErr) (hb : s.writeBuffer = d :: rest)
    (h : s.closing = false) :
    write_ready (WriteResult.failed e) s =
      ((check_flow_control (cleanup_async { s with closing := true })).1,
        Event.connection_lost (some e) ::
          (check_flow_control (cleanup_async { s with closing := true })).2) := by
  unfold write_ready
  rw [hb]
  simp [h, fatal_error_of_not_closing e s h, hb]

theorem close_of_closing (s : TransportState) (h : s.closing = true) :
    close s = (s, []) := by
  unfold close; rw [h]; rfl

@[simp] theorem abort_writeBuffer (s : TransportState) :
    (abort s).1.writeBuffer = [] := rfl

@[simp] theorem abort_writeBufferSize (s : TransportState) :
    (abort s).1.writeBufferSize = 0 := rfl

@[simp] theorem abort_closing (s : TransportState) :
    (abort s).1.closing = true := by
  show ({ cleanup_async { s with closing := true } with
            writeBuffer := [], writeBufferSize := 0 } : TransportState).closing = true
  simp

@[simp] theorem abort_events (s : TransportState) :
    (abort s).2 = [Event.connection_lost none] := rfl

@[simp] theorem fatal_error_st_writeBuffer (e : DevErr) (s : TransportState) :
    (fatal_error e s).1.writeBuffer = s.writeBuffer := by
  unfold fatal_error; split <;> simp

@[simp] theorem fatal_error_st_writeBufferSize (e : DevErr) (s : TransportState) :
    (fatal_error e s).1.writeBufferSize = s.writeBufferSize := by
  unfold fatal_error; split <;> simp

@[simp] theorem read_ready_st_writeBuffer (r : ReadResult) (s : TransportState) :
    (read_ready r s).1.writeBuffer = s.writeBuffer := by
  unfold read_ready
  split
  · rfl
  · split
    · split <;> rfl
    · simp

@[simp] theorem read_ready_st_writeBufferSize (r : ReadResult) (s : TransportState) :
    (read_ready r s).1.writeBufferSize = s.writeBufferSize := by
  unfold read_ready
  split
  · rfl
  · split
    · split <;> rfl
    · simp

@[simp] theorem close_st_writeBuffer (s : TransportState) :
    (close s).1.writeBuffer = s.writeBuffer := by
  unfold close complete_close
  split
  · rfl
  · dsimp only
    split <;> simp_all

@[simp] theorem close_st_writeBufferSize (s : TransportState) :
    (close s).1.writeBufferSize = s.writeBufferSize := by
  unfold close complete_close
  split
  · rfl
  · dsimp only
    split <;> simp

theorem write_spec (d : List Nat) (s : TransportState) (hc : s.closing = false) :
    (write d s).1.writeBuffer = s.writeBuffer ++ [d] ∧
    (write d s).1.writeBufferSize = s.writeBufferSize + d.length ∧
    (write d s).1.closing = false := by
  unfold write; simp [hc]

theorem goodSize_write (d : List Nat) (s : TransportState) (h : goodSize s) :
    goodSize (write d s).1 := by
  unfold goodSize at *
  cases hc : s.closing with
  | true => unfold write; simpa [hc] using h
  | false =>
      obtain ⟨h1, h2, -⟩ := write_spec d s hc
      rw [h1, h2, h]
      simp [sumLen_append]

theorem goodSize_write_ready (r : WriteResult) (s : TransportState)
    (hv : ∀ n, r = WriteResult.wrote n → n ≤ (s.writeBuffer.headD []).length)
    (h : goodSize s) : goodSize (write_ready r s).1 := by
  unfold goodSize at *
  cases hb : s.writeBuffer with
  | nil =>
      rw [write_ready_of_nil r s hb]
      simpa [hb] using h
  | cons d rest =>
      cases hc : s.closing with
      | true =>
          rw [write_ready_of_closing r s d rest hb hc]
          simpa [hb] using h
      | false =>
          rw [hb] at h
          cases r with
          | would_block =>
              rw [write_ready_would_block s d rest hb hc]
              simpa [hb] using h
          | failed e =>
              rw [write_ready_failed s d rest e hb hc]
              simpa [hb] using h
          | wrote n =>
              have hn : n ≤ d.length := by simpa [hb] using hv n rfl
              rw [sumLen_cons] at h
              push_cast at h
              by_cases hnl : n = d.length
              · subst hnl
                rw [write_ready_full s d rest hb hc]
                split <;> simp_all
              · rw [write_ready_partial_case s d rest n hb hc hnl]
                simp
                omega

theorem goodSize_read_ready (r : ReadResult) (s : TransportState)
    (h : goodSize s) : goodSize (read_ready r s).1 := by
  unfold goodSize at *
  simp [h]

theorem goodSize_poll_tick (iw ow : Nat) (rr : ReadResult) (wr : WriteResult)
    (s : TransportState)
    (hv : ∀ n, wr = WriteResult.wrote n → n ≤ (s.writeBuffer.headD []).length)
    (h : goodSize s) : goodSize (poll_tick iw ow rr wr s).1 := by
  unfold poll_tick
  cases hcl : s.closing with
  | true => simpa using h
  | false =>
      simp only [Bool.false_eq_true, if_false]
      by_cases hiw : iw > 0
      · rw [if_pos hiw]
        split
        · exact goodSize_write_ready wr _
            (fun n hn => by rw [read_ready_st_writeBuffer]; exact hv n hn)
            (goodSize_read_ready rr s h)
        · exact goodSize_read_ready rr s h
      · rw [if_neg hiw]
        split
        · exact goodSize_write_ready wr _ (fun n hn => hv n hn) h
        · exact h

theorem goodSize_applyOp (o : Op) (s : TransportState)
    (hv : opValid o s = true) (h : goodSize s) : goodSize (applyOp o s).1 := by
  cases o with
  | opWrite d => exact goodSize_write d s h
  | opWriteReady r =>
      refine goodSize_write_ready r s (fun n hn => ?_) h
      subst hn
      simpa [opValid] using hv
  | opReadReady r => exact goodSize_read_ready r s h
  | opClose =>
      unfold goodSize at *
      simp [applyOp, h]
  | opAbort =>
      unfold goodSize
      simp [applyOp]
  | opFatal e =>
      unfold goodSize at *
      simp [applyOp, h]
  | opSetLimits hi lo =>
      unfold goodSize at *
      unfold applyOp set_write_buffer_limits
      dsimp only
      by_cases hcond : swbl_high hi lo ≥ swbl_low hi lo ∧ swbl_low hi lo ≥ 0
      · rw [if_pos hcond]
        simpa using h
      · rw [if_neg hcond]
        simpa using h
  | opPauseReading =>
      unfold goodSize at *
      simp [applyOp, h]
  | opResumeReading =>
      unfold goodSize at *
      simp [applyOp, h]
  | opPollTick iw ow rr wr =>
      refine goodSize_poll_tick iw ow rr wr s (fun n hn => ?_) h
      subst hn
      simpa [opValid] using hv

theorem goodSize_runOps (ops : List Op) (s : TransportState)
    (hv : validOps ops s = true) (h : goodSize s) :
    goodSize (runOps s ops).1 := by
  induction ops generalizing s with
  | nil => simpa [runOps] using h
  | cons o rest ih =>
      unfold validOps at hv
      rw [Bool.and_eq_true] at hv
      show goodSize (runOps (applyOp o s).1 rest).1
      exact ih (applyOp o s).1 hv.2 (goodSize_applyOp o s hv.1 h)

theorem runOps_writes (chunks : List (List Nat)) (s : TransportState)
    (hc : s.closing = false) :
    (runOps s (chunks.map Op.opWrite)).1.writeBuffer = s.writeBuffer ++ chunks ∧
    (runOps s (chunks.map Op.opWrite)).1.writeBufferSize
      = s.writeBufferSize + (sumLen chunks : Int) ∧
    (runOps s (chunks.map Op.opWrite)).1.closing = false := by
  induction chunks generalizing s with
  | nil => simp [runOps, hc]
  | cons c cs ih =>
      obtain ⟨h1, h2, h3⟩ := write_spec c s hc
      obtain ⟨g1, g2, g3⟩ := ih (write c s).1 h3
      refine ⟨?_, ?_, ?_⟩
      · show (runOps (applyOp (Op.opWrite c) s).1 (cs.map Op.opWrite)).1.writeBuffer
            = s.writeBuffer ++ c :: cs
        rw [show applyOp (Op.opWrite c) s = write c s from rfl, g1, h1]
        simp
      · show (runOps (applyOp (Op.opWrite c) s).1 (cs.map Op.opWrite)).1.writeBufferSize
            = s.writeBufferSize + (sumLen (c :: cs) : Int)
        rw [show applyOp (Op.opWrite c) s = write c s from rfl, g2, h2]
        simp [sumLen_cons]
        ring
      · show (runOps (applyOp (Op.opWrite c) s).1 (cs.map Op.opWrite)).1.closing = false
        rw [show applyOp (Op.opWrite c) s = write c s from rfl]
        exact g3

theorem cfc_resume_case (s : TransportState) (hp : s.protocolPaused = true)
    (hle : s.writeBufferSize ≤ s.lowWaterMark) :
    check_flow_control s
      = ({ s with protocolPaused := false }, [Event.resume_writing]) := by
  unfold check_flow_control
  rw [if_pos ⟨hp, hle⟩]

theorem cfc_pause_case (s : TransportState) (hp : s.protocolPaused = false)
    (hge : s.writeBufferSize ≥ s.highWaterMark) :
    check_flow_control s
      = ({ s with protocolPaused := true }, [Event.pause_writing]) := by
  unfold check_flow_control
  rw [if_neg (by simp [hp]), if_pos ⟨hp, hge⟩]

theorem cfc_rest_case (s : TransportState)
    (h1 : s.protocolPaused = true → s.lowWaterMark < s.writeBufferSize)
    (h2 : s.protocolPaused = false → s.writeBufferSize < s.highWaterMark) :
    check_flow_control s = (s, []) := by
  have c1 : ¬(s.protocolPaused = true ∧ s.writeBufferSize ≤ s.lowWaterMark) := by
    rintro ⟨hp, hle⟩
    exact absurd hle (not_le.mpr (h1 hp))
  have c2 : ¬(s.protocolPaused = false ∧ s.writeBufferSize ≥ s.highWaterMark) := by
    rintro ⟨hp, hge⟩
    exact absurd hge (not_le.mpr (h2 hp))
  unfold check_flow_control
  rw [if_neg c1, if_neg c2]

theorem cleanup_reader_ra (s : TransportState) (hm : s.mode = Mode.posix) :
    (cleanup_reader s).readerActive = false := by
  unfold cleanup_reader
  by_cases ha : s.readerActive = true
  · rw [if_pos ⟨hm, ha⟩]
  · rw [if_neg (fun hcon => ha hcon.2)]
    simpa using ha

theorem remove_writer_wa (s : TransportState) (hm : s.mode = Mode.posix) :
    (remove_writer s).writerActive = false := by
  unfold remove_writer
  by_cases ha : s.writerActive = true
  · rw [if_pos ⟨hm, ha⟩]
  · rw [if_neg (fun hcon => ha hcon.2)]
    simpa using ha

theorem cleanup_async_ra (s : TransportState) (hm : s.mode = Mode.posix) :
    (cleanup_async s).readerActive = false := by
  show (remove_writer (cleanup_reader s)).readerActive = false
  rw [remove_writer_readerActive]
  exact cleanup_reader_ra s hm

theorem cleanup_async_wa (s : TransportState) (hm : s.mode = Mode.posix) :
    (cleanup_async s).writerActive = false := by
  show (remove_writer (cleanup_reader s)).writerActive = false
  exact remove_writer_wa _ (by simpa using hm)

theorem countConnLost_connLost_cons (o : Option DevErr) (evs : List Event) :
    countConnLost (Event.connection_lost o :: evs) = countConnLost evs + 1 := by
  simp [countConnLost]

/-- C1 counterexample: the claim says `close()`/`abort()` on an
already-`Closing`/`Closed` transport is a no-op scheduling no second
`connectionLost`, but after `abort()` has closed a freshly constructed
transport, a second `abort()` schedules `connection_lost` again. -/
theorem abort_after_abort_reemits_connection_lost_cex :
    ((abort (init Mode.nt 65536 16384).1).1).closing = true ∧
    (abort ((abort (init Mode.nt 65536 16384).1).1)).2
      = [Event.connection_lost none] := by decide

/-- C1 (amended): on an already-`Closing`/`Closed` transport, `close()` is
a no-op that schedules no second `connectionLost`, but `abort()` is not
idempotent: it schedules `connection_lost` again every time it is called. -/
theorem close_idempotent_abort_not (s : TransportState) (h : s.closing = true) :
    close s = (s, []) ∧ (abort s).2 = [Event.connection_lost none] :=
  ⟨close_of_closing s h, abort_events s⟩

/-- Witness for the amended C1 at a concrete already-aborted transport. -/
theorem close_idempotent_abort_not_witness :
    close (abort sampleState).1 = ((abort sampleState).1, []) ∧
    (abort (abort sampleState).1).2 = [Event.connection_lost none] :=
  close_idempotent_abort_not (abort sampleState).1 (by decide)

/-- C2: whatever was written or partially sent before, `abort()` empties
the write queue, makes `getWriteBufferSize()` report `0`, attempts no
further send (it consumes no device write outcome), and schedules exactly
one `connection_lost` with no error. -/
theorem abort_discards_and_notifies (s : TransportState) :
    get_write_buffer_size (abort s).1 = 0 ∧
    (abort s).1.writeBuffer = [] ∧
    (abort s).2 = [Event.connection_lost none] :=
  ⟨rfl, rfl, rfl⟩

/-- C3 counterexample: `set_write_buffer_limits(high=10, low=20)` raises
the builtin `ValueError`, not the repository's `SerialConfigError` (the
spec's `ConfigurationError`), so the claim's exception type is wrong. -/
theorem swbl_raises_valueError_cex :
    set_write_buffer_limits (some 10) (some 20) (init Mode.nt 65536 16384).1
      = Except.error PyExn.valueError ∧
    set_write_buffer_limits (some 10) (some 20) (init Mode.nt 65536 16384).1
      ≠ Except.error PyExn.serialConfigError := by
  constructor
  · rfl
  · intro h
    rw [show set_write_buffer_limits (some 10) (some 20) (init Mode.nt 65536 16384).1
          = Except.error PyExn.valueError from rfl] at h
    simp at h

/-- C3 (amended): any watermark combination failing `high ≥ low ≥ 0`
(after default-filling) makes `set_write_buffer_limits` raise the builtin
`ValueError` — not `SerialConfigError` — and leaves the transport state
unchanged. -/
theorem swbl_invalid_raises_valueError (s : TransportState) (hi lo : Option Int)
    (h : ¬(swbl_high hi lo ≥ swbl_low hi lo ∧ swbl_low hi lo ≥ 0)) :
    set_write_buffer_limits hi lo s = Except.error PyExn.valueError ∧
    applyOp (Op.opSetLimits hi lo) s = (s, []) := by
  have he : set_write_buffer_limits hi lo s = Except.error PyExn.valueError := by
    unfold set_write_buffer_limits
    dsimp only
    rw [if_neg h]
  refine ⟨he, ?_⟩
  show (match set_write_buffer_limits hi lo s with
        | Except.ok p => p
        | Except.error _ => (s, [])) = (s, [])
  rw [he]

/-- Witness for the amended C3 at `high=10, low=20` on a concrete state. -/
theorem swbl_invalid_raises_valueError_witness :
    set_write_buffer_limits (some 10) (some 20) sampleState
      = Except.error PyExn.valueError ∧
    applyOp (Op.opSetLimits (some 10) (some 20)) sampleState = (sampleState, []) :=
  swbl_invalid_raises_valueError sampleState (some 10) (some 20) (by decide)

/-- C10: `write(data)` after `abort()` is a no-op — the state (already
with an empty queue and zero counter) is returned unchanged and no
notification fires. -/
theorem write_after_abort_noop (s : TransportState) (data : List Nat) :
    write data (abort s).1 = ((abort s).1, []) ∧
    get_write_buffer_size (abort s).1 = 0 := by
  constructor
  · unfold write
    rw [if_pos (abort_closing s)]
  · rfl

/-- C4 counterexample: the constructor stores its watermark arguments
without validation, so building a transport with `high=10, low=20`
violates `highWatermark ≥ lowWatermark ≥ 0` immediately after
construction. -/
theorem init_unvalidated_watermarks_cex :
    ¬((init Mode.nt 10 20).1.highWaterMark ≥ (init Mode.nt 10 20).1.lowWaterMark ∧
      (init Mode.nt 10 20).1.lowWaterMark ≥ 0) := by decide

/-- C4 (amended): the constructor does not enforce the watermark
invariant (it can be violated by passing e.g. `high=10, low=20`); the only
mutation of the watermarks, `set_write_buffer_limits`, does enforce it —
after every successful call `highWatermark ≥ lowWatermark ≥ 0` — and
construction with the source's default arguments satisfies it. -/
theorem watermark_invariant_enforced_on_mutation :
    (∀ (hi lo : Option Int) (s s' : TransportState) (evs : List Event),
        set_write_buffer_limits hi lo s = Except.ok (s', evs) →
        s'.highWaterMark ≥ s'.lowWaterMark ∧ s'.lowWaterMark ≥ 0) ∧
    (∀ m : Mode,
        (init m 65536 16384).1.highWaterMark ≥ (init m 65536 16384).1.lowWaterMark ∧
        (init m 65536 16384).1.lowWaterMark ≥ 0) := by
  constructor
  · intro hi lo s s' evs hok
    unfold set_write_buffer_limits at hok
    dsimp only at hok
    by_cases hcond : swbl_high hi lo ≥ swbl_low hi lo ∧ swbl_low hi lo ≥ 0
    · rw [if_pos hcond] at hok
      injection hok with hp
      have hfst : (check_flow_control
          { s with highWaterMark := swbl_high hi lo,
                   lowWaterMark := swbl_low hi lo }).1 = s' :=
        congrArg Prod.fst hp
      rw [← hfst]
      simpa using hcond
    · rw [if_neg hcond] at hok
      exact Except.noConfusion hok
  · intro m
    cases m <;> decide

/-- Witness for the amended C4: a successful `set_write_buffer_limits(12, 3)`
on a concrete state yields watermarks satisfying the invariant. -/
theorem watermark_invariant_enforced_on_mutation_witness :
    ({ sampleState with
        highWaterMark := 12,
        lowWaterMark := 3 } : TransportState).highWaterMark
      ≥ ({ sampleState with
            highWaterMark := 12,
            lowWaterMark := 3 } : TransportState).lowWaterMark ∧
    ({ sampleState with
        highWaterMark := 12,
        lowWaterMark := 3 } : TransportState).lowWaterMark ≥ 0 :=
  watermark_invariant_enforced_on_mutation.1 (some 12) (some 3) sampleState
    { sampleState with highWaterMark := 12, lowWaterMark := 3 } [] rfl

/-- C5: the `_write_buffer_size` counter always equals the total number of
bytes remaining in `_write_buffer` — it is preserved by every stimulus
(writes, full/partial/failed sends, close, abort, poll ticks, limit
changes), provided the device never reports more bytes written than the
head chunk holds; and after any sequence of `write(chunk)` calls from a
fresh transport (before any send), `get_write_buffer_size` equals the sum
of the chunk lengths. -/
theorem write_buffer_size_invariant :
    (∀ (s : TransportState) (ops : List Op), goodSize s →
        validOps ops s = true → goodSize (runOps s ops).1) ∧
    (∀ (chunks : List (List Nat)) (m : Mode) (hw lw : Int),
        get_write_buffer_size (runOps (init m hw lw).1 (chunks.map Op.opWrite)).1
          = (sumLen chunks : Int)) := by
  constructor
  · intro s ops h hv
    exact goodSize_runOps ops s hv h
  · intro chunks m hw lw
    obtain ⟨-, h2, -⟩ := runOps_writes chunks (init m hw lw).1 rfl
    unfold get_write_buffer_size
    rw [h2]
    simp [init]

/-- Witness for C5 on a concrete state and stimulus sequence containing a
write, a partial send and an abort. -/
theorem write_buffer_size_invariant_witness :
    goodSize (runOps sampleState
      [Op.opWrite [5, 6], Op.opWriteReady (WriteResult.wrote 1), Op.opAbort]).1 :=
  write_buffer_size_invariant.1 sampleState
    [Op.opWrite [5, 6], Op.opWriteReady (WriteResult.wrote 1), Op.opAbort]
    (by unfold goodSize; decide) (by decide)

/-- C6: a partial send of `n < len(head)` bytes replaces the head chunk by
its suffix from byte `n` (it stays at the head, the tail of the queue is
untouched and unreordered) and decreases the byte counter by exactly `n`. -/
theorem partial_send_keeps_suffix_at_head (s : TransportState) (d : List Nat)
    (rest : List (List Nat)) (n : Nat) (hb : s.writeBuffer = d :: rest)
    (hc : s.closing = false) (hn : n < d.length) :
    (write_ready (WriteResult.wrote n) s).1.writeBuffer = d.drop n :: rest ∧
    (write_ready (WriteResult.wrote n) s).1.writeBufferSize
      = s.writeBufferSize - n := by
  rw [write_ready_partial_case s d rest n hb hc (Nat.ne_of_lt hn)]
  constructor <;> simp

/-- Witness for C6: sending 1 of the 3 bytes of the head chunk of a
concrete queue leaves its 2-byte suffix at the head. -/
theorem partial_send_keeps_suffix_at_head_witness :
    (write_ready (WriteResult.wrote 1) sampleState).1.writeBuffer = [[2, 3], [4]] ∧
    (write_ready (WriteResult.wrote 1) sampleState).1.writeBufferSize
      = sampleState.writeBufferSize - 1 :=
  partial_send_keeps_suffix_at_head sampleState [1, 2, 3] [[4]] 1 rfl rfl (by decide)

/-- C7 counterexample: with `high = low = 10` (accepted by the validator,
since `10 ≥ 10 ≥ 0`) a 10-byte write fires `pause_writing`; re-evaluating
flow control on the resulting state — `pendingBytes` unchanged at 10 —
fires `resume_writing`, an additional notification, so evaluation is not
idempotent at rest. -/
theorem flow_control_oscillates_at_equal_watermarks_cex :
    (write [0, 1, 2, 3, 4, 5, 6, 7, 8, 9] (init Mode.nt 10 10).1).2
      = [Event.pause_writing] ∧
    (check_flow_control
        (write [0, 1, 2, 3, 4, 5, 6, 7, 8, 9] (init Mode.nt 10 10).1).1).1.writeBufferSize
      = (write [0, 1, 2, 3, 4, 5, 6, 7, 8, 9] (init Mode.nt 10 10).1).1.writeBufferSize ∧
    (check_flow_control
        (write [0, 1, 2, 3, 4, 5, 6, 7, 8, 9] (init Mode.nt 10 10).1).1).2
      = [Event.resume_writing] := by decide

/-- C7 (amended): each single flow-control evaluation emits exactly one
`pause_writing` when not paused with `pendingBytes ≥ high`, exactly one
`resume_writing` when paused with `pendingBytes ≤ low`, and nothing
otherwise; and re-evaluation with unchanged `pendingBytes` emits no
additional notification except in the degenerate situation where
`pendingBytes` is simultaneously `≥ high` and `≤ low` (with `high ≥ low`
this means `high = low = pendingBytes`), where evaluations alternate
pause/resume forever. -/
theorem flow_control_single_notification_per_crossing :
    (∀ s : TransportState,
        ¬(s.highWaterMark ≤ s.writeBufferSize ∧ s.writeBufferSize ≤ s.lowWaterMark) →
        (check_flow_control (check_flow_control s).1).2 = []) ∧
    (∀ s : TransportState, s.protocolPaused = false →
        s.writeBufferSize ≥ s.highWaterMark →
        check_flow_control s
          = ({ s with protocolPaused := true }, [Event.pause_writing])) ∧
    (∀ s : TransportState, s.protocolPaused = true →
        s.writeBufferSize ≤ s.lowWaterMark →
        check_flow_control s
          = ({ s with protocolPaused := false }, [Event.resume_writing])) ∧
    (∀ s : TransportState,
        (s.protocolPaused = true → s.lowWaterMark < s.writeBufferSize) →
        (s.protocolPaused = false → s.writeBufferSize < s.highWaterMark) →
        check_flow_control s = (s, [])) := by
  refine ⟨?_, cfc_pause_case, cfc_resume_case, cfc_rest_case⟩
  intro s hno
  by_cases hp : s.protocolPaused = true
  · by_cases hle : s.writeBufferSize ≤ s.lowWaterMark
    · rw [cfc_resume_case s hp hle]
      have hlt : s.writeBufferSize < s.highWaterMark :=
        not_le.mp (fun hh => hno ⟨hh, hle⟩)
      show (check_flow_control { s with protocolPaused := false }).2 = []
      rw [cfc_rest_case { s with protocolPaused := false }
            (fun h => by simp at h) (fun _ => hlt)]
    · have hr := cfc_rest_case s (fun _ => not_le.mp hle)
        (fun h => by rw [hp] at h; cases h)
      rw [hr]
      show (check_flow_control s).2 = []
      rw [hr]
  · have hpf : s.protocolPaused = false := by simpa using hp
    by_cases hge : s.highWaterMark ≤ s.writeBufferSize
    · rw [cfc_pause_case s hpf hge]
      have hgt : s.lowWaterMark < s.writeBufferSize :=
        not_le.mp (fun hl => hno ⟨hge, hl⟩)
      show (check_flow_control { s with protocolPaused := true }).2 = []
      rw [cfc_rest_case { s with protocolPaused := true }
            (fun _ => hgt) (fun h => by simp at h)]
    · have hr := cfc_rest_case s (fun h => by rw [hpf] at h; cases h)
        (fun _ => not_le.mp hge)
      rw [hr]
      show (check_flow_control s).2 = []
      rw [hr]

/-- Witness for the amended C7 at concrete states: re-evaluation away from
the degenerate point is silent; a crossing above `high` pauses; a crossing
below `low` resumes; no crossing emits nothing. -/
theorem flow_control_single_notification_per_crossing_witness :
    (check_flow_control (check_flow_control sampleState).1).2 = [] ∧
    check_flow_control { sampleState with writeBufferSize := 12 }
      = ({ sampleState with
            writeBufferSize := 12,
            protocolPaused := true }, [Event.pause_writing]) ∧
    check_flow_control { sampleState with
        writeBufferSize := 2,
        protocolPaused := true }
      = ({ sampleState with
            writeBufferSize := 2,
            protocolPaused := false }, [Event.resume_writing]) ∧
    check_flow_control sampleState = (sampleState, []) :=
  ⟨flow_control_single_notification_per_crossing.1 sampleState (by decide),
   flow_control_single_notification_per_crossing.2.1
     { sampleState with writeBufferSize := 12 } (by decide) (by decide),
   flow_control_single_notification_per_crossing.2.2.1
     { sampleState with writeBufferSize := 2, protocolPaused := true }
     (by decide) (by decide),
   flow_control_single_notification_per_crossing.2.2.2 sampleState
     (by decide) (by decide)⟩

/-- C8: a device failure during a read while not closing closes the
transport (closing flag set, poll task cancelled, device handle closed,
and on POSIX both readiness registrations dropped) and schedules exactly
one `connection_lost` carrying the triggering error; a device failure
during a send while not closing does the same (the trailing flow-control
re-evaluation may add a pause/resume notification but never another
`connection_lost`); while already closing, a readiness callback performs
no device I/O — `_read_ready` returns unchanged with no events and
`_write_ready` emits no events. -/
theorem fatal_io_error_closes_once :
    (∀ (s : TransportState) (e : DevErr), s.closing = false →
        (read_ready (ReadResult.failed e) s).2 = [Event.connection_lost (some e)] ∧
        (read_ready (ReadResult.failed e) s).1.closing = true ∧
        (read_ready (ReadResult.failed e) s).1.serialOpen = false ∧
        (read_ready (ReadResult.failed e) s).1.pollActive = false ∧
        (s.mode = Mode.posix →
          (read_ready (ReadResult.failed e) s).1.readerActive = false ∧
          (read_ready (ReadResult.failed e) s).1.writerActive = false)) ∧
    (∀ (s : TransportState) (e : DevErr) (d : List Nat) (rest : List (List Nat)),
        s.closing = false → s.writeBuffer = d :: rest →
        countConnLost (write_ready (WriteResult.failed e) s).2 = 1 ∧
        (write_ready (WriteResult.failed e) s).2.head?
          = some (Event.connection_lost (some e)) ∧
        (write_ready (WriteResult.failed e) s).1.closing = true ∧
        (write_ready (WriteResult.failed e) s).1.serialOpen = false ∧
        (write_ready (WriteResult.failed e) s).1.pollActive = false) ∧
    (∀ (s : TransportState) (r : ReadResult), s.closing = true →
        read_ready r s = (s, [])) ∧
    (∀ (s : TransportState) (r : WriteResult), s.closing = true →
        (write_ready r s).2 = []) := by
  refine ⟨?_, ?_, ?_, ?_⟩
  · intro s e h
    rw [read_ready_failed_of_not_closing e s h]
    refine ⟨rfl, by simp, rfl, rfl, fun hm => ?_⟩
    constructor
    · exact cleanup_async_ra _ (by simpa using hm)
    · exact cleanup_async_wa _ (by simpa using hm)
  · intro s e d rest h hb
    rw [write_ready_failed s d rest e hb h]
    refine ⟨?_, rfl, by simp, by simp, by simp⟩
    rw [countConnLost_connLost_cons, cfc_no_connLost]
  · exact fun s r hcl => read_ready_of_closing r s hcl
  · intro s r hcl
    cases hb : s.writeBuffer with
    | nil => rw [write_ready_of_nil r s hb]
    | cons d rest => rw [write_ready_of_closing r s d rest hb hcl]

/-- Witness for C8 at concrete inputs: a failing read on a live transport;
a failing send with a queued chunk; a read and a send attempted on an
already-aborted transport. -/
theorem fatal_io_error_closes_once_witness :
    (read_ready (ReadResult.failed (DevErr.serialException 7)) sampleState).2
      = [Event.connection_lost (some (DevErr.serialException 7))] ∧
    countConnLost
      (write_ready (WriteResult.failed (DevErr.osError 5)) sampleState).2 = 1 ∧
    read_ready (ReadResult.bytes [1]) (abort sampleState).1
      = ((abort sampleState).1, []) ∧
    (write_ready (WriteResult.wrote 0) (abort sampleState).1).2 = [] :=
  ⟨(fatal_io_error_closes_once.1 sampleState (DevErr.serialException 7) rfl).1,
   (fatal_io_error_closes_once.2.1 sampleState (DevErr.osError 5) [1, 2, 3] [[4]]
      rfl rfl).1,
   fatal_io_error_closes_once.2.2.1 (abort sampleState).1 (ReadResult.bytes [1])
     (by decide),
   fatal_io_error_closes_once.2.2.2 (abort sampleState).1 (WriteResult.wrote 0)
     (by decide)⟩

/-- C9 (code-bug demonstration): in poll mode (`os.name == 'nt'`),
`pause_reading` leaves the transport state completely unchanged — the
source only acts on POSIX and the poll loop consults no paused flag — so
a subsequent poll tick that observes 5 bytes waiting still delivers
`data_received` to the protocol while reading is supposedly paused. -/
theorem poll_mode_pause_reading_does_not_gate_delivery :
    pause_reading (init Mode.nt 65536 16384).1 = (init Mode.nt 65536 16384).1 ∧
    (poll_tick 5 0 (ReadResult.bytes [120]) WriteResult.would_block
        (pause_reading (init Mode.nt 65536 16384).1)).2
      = [Event.data_received [120]] := by decide
